import Mathlib

/-!
Verification development for stock_analyzer1.0.py.

The script is embedded shallowly: pandas objects become explicit inductive
data, numeric values are exact rationals, floating NaN becomes `none`, and
Python exceptions become an explicit `Exc` type threaded through `Except`.
Each definition below names the source function it embeds and the line
numbers it was translated from.
-/

deriving instance DecidableEq for Except

namespace StockAnalyzer

/-- Python exception classes that occur in the script: the narrow sets that
the batch loop (line 401) and the summary writer (line 326) catch, plus
IndexError (iloc on empty data) and tenacity.RetryError (raised by the
retry decorator on line 229 once attempts are exhausted, since reraise is
left at its default False). -/
inductive Exc
| valueError
| typeError
| keyError
| osError
| indexError
| retryError
deriving DecidableEq

/-- Scalar values stored in pandas columns. A timestamp is kept as its
wall-clock display value together with an optional timezone tag; pandas
tz_localize(None) drops the tag and keeps the displayed wall-clock value,
which is exactly the observable behaviour, so dropping the tag here
preserves the value component. A bare calendar date (datetime.date) is a
distinct constructor from a timestamp. -/
inductive Val
| dt (wall : Int) (tz : Option String)
| date (d : Int)
| str (s : String)
| num (q : ℚ)
deriving DecidableEq

/-- Column dtypes as pandas declares them: timezone-naive datetime64,
timezone-aware datetime64 with a named zone, generic object, or numeric. -/
inductive Dtype
| dtNaive
| dtAware (tz : String)
| object
| numeric
deriving DecidableEq

/-- A pandas index: either a DatetimeIndex (optional timezone plus the
wall-clock values of its entries) or any other index carrying only a
length. -/
inductive Idx
| dtIdx (tz : Option String) (walls : List Int)
| plain (n : Nat)
deriving DecidableEq

/-- A named DataFrame column with its declared dtype and values. -/
structure Col where
  name : String
  dtype : Dtype
  vals : List Val
deriving DecidableEq

/-- A pandas DataFrame: an index and a list of named columns. -/
structure Frame where
  idx : Idx
  cols : List Col
deriving DecidableEq

/-- A pandas Series: a name, an index, a declared dtype and its values. -/
structure Series where
  name : String
  idx : Idx
  dtype : Dtype
  vals : List Val
deriving DecidableEq

/-- The dynamic values flowing into handle_data / remove_timezone: Python
None, a DataFrame, a Series, a plain dict, or any other object. -/
inductive PyData
| pyNone
| frame (f : Frame)
| series (s : Series)
| dict (entries : List (String × Val))
| other
deriving DecidableEq

/-- Number of rows an index spans. -/
def idxLen : Idx → Nat
| .dtIdx _ walls => walls.length
| .plain n => n

/-- pandas DataFrame.empty: true when either axis has length zero. -/
def frameEmpty (f : Frame) : Bool :=
  idxLen f.idx == 0 || f.cols.isEmpty

/-- Dtype pandas infers for a scalar placed in a fresh column: timestamps
give datetime64 dtypes, dates and strings give object, numbers numeric. -/
def dtypeOf : Val → Dtype
| .dt _ none => .dtNaive
| .dt _ (some tz) => .dtAware tz
| .date _ => .object
| .str _ => .object
| .num _ => .numeric

/-- pd.DataFrame([d]) on a dict d (line 87): a one-row frame with one
column per key, holding that key's single value. -/
def infoFrame (d : List (String × Val)) : Frame :=
  { idx := .plain 1
  , cols := d.map (fun kv => { name := kv.1, dtype := dtypeOf kv.2, vals := [kv.2] }) }

/-- Number of rows of a frame. -/
def frameRowCount (f : Frame) : Nat := idxLen f.idx

/-- The first row of a frame, as an association of column name to the
head value of that column. -/
def frameFirstRow (f : Frame) : List (String × Option Val) :=
  f.cols.map (fun c => (c.name, c.vals.head?))

/-- handle_data (lines 82-90): the dynamic if-chain of the source compiled
per constructor. None returns None; a DataFrame or Series that reports
itself empty (the only inputs with an empty attribute) returns None; a
dict tagged info is wrapped by pd.DataFrame([data]); any remaining
DataFrame or Series is returned as is; everything else returns None. -/
def handle_data : PyData → Option String → Option PyData
| .pyNone, _ => none
| .frame f, _ => if frameEmpty f then none else some (.frame f)
| .series s, _ => if s.vals.isEmpty then none else some (.series s)
| .dict d, dataType => if dataType = some "info" then some (.frame (infoFrame d)) else none
| .other, _ => none

/-- Index step of remove_timezone (lines 102-104 and 128-129): a
DatetimeIndex with a timezone is tz_localized to None (tag dropped,
wall-clock entries kept); every other index is untouched. -/
def stripIdxTZ : Idx → Idx
| .dtIdx (some _) walls => .dtIdx none walls
| i => i

/-- The dtype filter of select_dtypes on lines 107-113: naive datetime64
plus exactly the two hard-coded aware dtypes UTC and US/Eastern; aware
columns in any other timezone are not selected. -/
def selectedDtype : Dtype → Bool
| .dtNaive => true
| .dtAware tz => tz == "UTC" || tz == "US/Eastern"
| .object => false
| .numeric => false

/-- Effect of .dt.tz_localize(None) on one stored value: the timezone tag
is dropped, the wall-clock value kept; non-timestamps are untouched. -/
def stripValTZ : Val → Val
| .dt w _ => .dt w none
| v => v

/-- Column step for the selected datetime columns (lines 114-115):
pd.to_datetime followed by .dt.tz_localize(None) leaves a naive datetime64
column with the same wall-clock values; on an already naive column the
call is a no-op. Unselected columns are untouched. -/
def stripColTZ (c : Col) : Col :=
  if selectedDtype c.dtype then
    { c with dtype := .dtNaive, vals := c.vals.map stripValTZ }
  else c

/-- pd.api.types .is_datetime64_any_dtype: a check of the declared DTYPE
of its argument, true exactly for naive or aware datetime64 and never for
object or numeric dtypes, whatever the stored values are. -/
def isDatetime64AnyDtype : Dtype → Bool
| .dtNaive => true
| .dtAware _ => true
| .object => false
| .numeric => false

/-- Coercion pd.to_datetime(col).dt.date would perform: each timestamp
becomes a bare calendar date carrying its wall-clock value. -/
def valToDate : Val → Val
| .dt w _ => .date w
| v => v

/-- Object-column step of remove_timezone (lines 118-125): for each column
of object dtype, the guard is_datetime64_any_dtype(df[col]) is evaluated
on the column itself, whose dtype is object, before any coercion; the
coercion to bare dates runs only when that guard holds of the column
dtype. -/
def objectColStep (c : Col) : Col :=
  if c.dtype = .object then
    if isDatetime64AnyDtype c.dtype then
      { c with vals := c.vals.map valToDate }
    else c
  else c

/-- The timezone of a Series as .dt.tz reports it: the tag of an aware
dtype, otherwise None. -/
def seriesTz : Dtype → Option String
| .dtAware tz => some tz
| _ => none

/-- Value step of the Series branch (lines 132-134): when the Series has a
datetime64 dtype and .dt.tz is not None, tz_localize(None) drops the tag
and keeps wall-clock values; otherwise the Series is untouched. -/
def stripSeriesVals (s : Series) : Series :=
  if isDatetime64AnyDtype s.dtype && (seriesTz s.dtype).isSome then
    { s with dtype := .dtNaive, vals := s.vals.map stripValTZ }
  else s

/-- remove_timezone (lines 92-135). None passes through; a DataFrame has
its index stripped and each column passed through the datetime-column and
object-column steps (the two steps touch disjoint dtype classes, so the
per-column composition is the sequential two-pass loop of the source); a
Series has its index stripped and then its values stripped when aware.
The copy on line 98 is the identity in this pure embedding. The function
is only ever applied to None, frames or series in the script; a dict or
other object would fall through both isinstance checks and be returned
unchanged. -/
def remove_timezone : PyData → PyData
| .pyNone => .pyNone
| .frame f =>
    .frame { idx := stripIdxTZ f.idx
           , cols := f.cols.map (fun c => objectColStep (stripColTZ c)) }
| .series s => .series (stripSeriesVals { s with idx := stripIdxTZ s.idx })
| .dict d => .dict d
| .other => .other

/-- Outcome of an interactive step: the process exits with the given code,
or the step yields a value and execution continues. -/
inductive Step (α : Type)
| exitWith (code : Nat)
| val (v : α)
deriving DecidableEq

/-- Python str.strip(): leading and trailing whitespace removed. -/
def pyStrip (s : String) : String :=
  ⟨((s.data.dropWhile Char.isWhitespace).reverse.dropWhile Char.isWhitespace).reverse⟩

/-- Python str.lower(): each character lowercased. -/
def pyLower (s : String) : String := ⟨s.data.map Char.toLower⟩

/-- Python str.upper(): each character uppercased. -/
def pyUpper (s : String) : String := ⟨s.data.map Char.toUpper⟩

/-- Chunk accumulator for str.split(sep): splitting at every separator,
keeping empty chunks exactly as Python does with an explicit separator. -/
def splitCharAux (sep : Char) : List Char → List Char → List String
| [], acc => [⟨acc.reverse⟩]
| c :: rest, acc =>
    if c = sep then ⟨acc.reverse⟩ :: splitCharAux sep rest []
    else splitCharAux sep rest (c :: acc)

/-- Python str.split(sep) with a one-character separator. -/
def pySplitOn (sep : Char) (s : String) : List String := splitCharAux sep s.data []

/-- Python str.split() with no argument: runs of whitespace separate the
chunks and empty chunks are dropped. -/
def splitWsAux : List Char → List Char → List String
| [], [] => []
| [], acc => [⟨acc.reverse⟩]
| c :: rest, acc =>
    if c.isWhitespace then
      if acc.isEmpty then splitWsAux rest []
      else ⟨acc.reverse⟩ :: splitWsAux rest []
    else splitWsAux rest (c :: acc)

/-- Python str.split() with no argument, on a string. -/
def pySplitWs (s : String) : List String := splitWsAux s.data []

/-- safe_input (lines 137-143): the raw input, stripped and lowercased,
equal to exit terminates the process with exit code 0; otherwise the raw
value is returned unchanged. -/
def safe_input (s : String) : Step String :=
  if pyLower (pyStrip s) = "exit" then .exitWith 0 else .val s

/-- The keys of DATA_TYPE_DESCRIPTIONS (lines 69-80) in their literal
insertion order, which the menu enumerates 1-based. -/
def DATA_TYPE_KEYS : List String :=
  ["historical", "financials", "quarterly_financials",
   "balance_sheet", "quarterly_balance_sheet",
   "cashflow", "quarterly_cashflow",
   "dividends", "splits", "info"]

/-- Digit-string value: some of the decimal value of a nonempty all-digit
character list, none otherwise. -/
def digitsToNat? (cs : List Char) : Option Nat :=
  if cs ≠ [] ∧ cs.all Char.isDigit then
    some (cs.foldl (fun n c => n * 10 + (c.toNat - 48)) 0)
  else none

/-- Python int(x.strip()): optional sign followed by a nonempty digit
string, else ValueError (modelled as none). -/
def pyInt (s : String) : Option Int :=
  match (pyStrip s).data with
  | '-' :: rest => (digitsToNat? rest).map (fun n => -(n : Int))
  | '+' :: rest => (digitsToNat? rest).map (fun n => (n : Int))
  | cs => (digitsToNat? cs).map (fun n => (n : Int))

/-- Line 158: the comma-split input, each part parsed by int and shifted
to a 0-based index; any part that fails to parse raises ValueError for the
whole list (none). -/
def parsedIndices (selected : String) : Option (List Int) :=
  (pySplitOn ',' selected).mapM (fun x => (pyInt x).map (fun n => n - 1))

/-- Line 160: keep the data-type keys at the in-range indices, in the
order the indices were given; out-of-range indices are silently dropped
by the bound check of the comprehension. -/
def validSelections (idxs : List Int) : List String :=
  idxs.filterMap (fun i =>
    if 0 ≤ i ∧ i < (DATA_TYPE_KEYS.length : Int) then DATA_TYPE_KEYS.get? i.toNat else none)

/-- select_data_types after safe_input (lines 152-167, on the stripped
input): empty or 0 selects all; a parse failure, or a parse with no valid
selections (the raised and immediately caught ValueError on line 164),
falls back to all with a warning; otherwise the valid selections are
returned. -/
def parseDataTypeSelection (selected : String) : List String :=
  if selected = "" || selected = "0" then DATA_TYPE_KEYS
  else
    match parsedIndices selected with
    | none => DATA_TYPE_KEYS
    | some idxs =>
        let sel := validSelections idxs
        if sel.isEmpty then DATA_TYPE_KEYS else sel

/-- select_data_types (lines 145-167): the prompt reply goes through
safe_input, then the stripped text is parsed as above. -/
def select_data_types (raw : String) : Step (List String) :=
  match safe_input raw with
  | .exitWith c => .exitWith c
  | .val v => .val (parseDataTypeSelection (pyStrip v))

/-- Ticker prompt (lines 367-368): safe_input, then uppercase and split on
whitespace, empty pieces dropped as Python str.split() with no argument
does. -/
def tickerPromptStep (raw : String) : Step (List String) :=
  match safe_input raw with
  | .exitWith c => .exitWith c
  | .val v => .val (pySplitWs (pyUpper v))

/-- Period prompt (lines 375-376): safe_input, then the Python or-default
idiom, substituting the configured default for an empty reply. -/
def periodPromptStep (raw default : String) : Step String :=
  match safe_input raw with
  | .exitWith c => .exitWith c
  | .val v => .val (if v = "" then default else v)

/-- Output-directory prompt (lines 383-391): safe_input, then strip; a
nonempty reply is taken as the directory, an empty one keeps the resolved
default. -/
def outputDirPromptStep (raw default : String) : Step String :=
  match safe_input raw with
  | .exitWith c => .exitWith c
  | .val v => .val (if pyStrip v = "" then default else pyStrip v)

/-- One row of the historical price frame: the calendar year of its index
entry and the Close, High and Low fields, as exact rationals. -/
structure HistRow where
  year : Int
  close : ℚ
  high : ℚ
  low : ℚ
deriving DecidableEq

/-- The last n entries of a list, as pandas tail(n): all entries when the
list is shorter than n. -/
def lastN (n : Nat) (xs : List ℚ) : List ℚ := xs.drop (xs.length - n)

/-- pandas Series.max(): NaN (none) on an empty series, else the fold of
max over the entries. -/
def listMax : List ℚ → Option ℚ
| [] => none
| x :: xs => some (xs.foldl max x)

/-- pandas Series.min(): NaN (none) on an empty series, else the fold of
min over the entries. -/
def listMin : List ℚ → Option ℚ
| [] => none
| x :: xs => some (xs.foldl min x)

/-- Line 206: hist_data High .tail(252).max(). -/
def high52w (highs : List ℚ) : Option ℚ := listMax (lastN 252 highs)

/-- Line 207: hist_data Low .tail(252).min(). -/
def low52w (lows : List ℚ) : Option ℚ := listMin (lastN 252 lows)

/-- Series.rolling(window=w).mean() with the pandas default min_periods
equal to the window size: position i holds NaN (none) until i+1 reaches w,
and from then on the mean of the w entries ending at i. -/
def rollingMean (w : Nat) (xs : List ℚ) : List (Option ℚ) :=
  (List.range xs.length).map (fun i =>
    if i + 1 < w then none
    else some (((xs.take (i + 1)).drop (i + 1 - w)).sum / (w : ℚ)))

/-- Line 212: hist_data Close .loc[str(year)].iloc[0] — the first close
among the rows whose index falls in the given calendar year; partial
string indexing raises KeyError when no row matches. -/
def ytdStartPrice (rows : List HistRow) (year : Int) : Except Exc ℚ :=
  match (rows.filter (fun r => r.year == year)).head? with
  | none => .error .keyError
  | some r => .ok r.close

/-- The numeric content of the analysis dict of lines 214-225. NaN-valued
metrics are none. The volatility and 1-month-return entries and the
percent-string formatting are not modelled: on the nonempty input that
analyze_stock guarantees they raise no exception and no claim constrains
their values. -/
structure Analysis where
  currentPrice : ℚ
  high52 : Option ℚ
  low52 : Option ℚ
  distHigh : Option ℚ
  distLow : Option ℚ
  ma50 : Option ℚ
  ma200 : Option ℚ
  ytdReturn : ℚ
deriving DecidableEq

/-- analyze_stock_data (lines 203-227). iloc[-1] on line 205 raises
IndexError on an empty frame; the YTD lookup on line 212 raises KeyError
when the current year is absent, in which case no analysis is produced
(the dict of line 214 is never built). The remaining metrics are total, so
hoisting the two fallible reads changes no observable outcome. -/
def analyze_stock_data (rows : List HistRow) (year : Int) : Except Exc Analysis :=
  match rows.getLast? with
  | none => .error .indexError
  | some lastRow =>
      match ytdStartPrice rows year with
      | .error e => .error e
      | .ok sp =>
          let closes := rows.map HistRow.close
          let latest := lastRow.close
          let h52 := high52w (rows.map HistRow.high)
          let l52 := low52w (rows.map HistRow.low)
          .ok { currentPrice := latest
              , high52 := h52
              , low52 := l52
              , distHigh := h52.map (fun hi => (latest / hi - 1) * 100)
              , distLow := l52.map (fun lo => (latest / lo - 1) * 100)
              , ma50 := ((rollingMean 50 closes).getLast?).join
              , ma200 := ((rollingMean 200 closes).getLast?).join
              , ytdReturn := (latest / sp - 1) * 100 }

/-- Fate of the summary-Excel block of lines 294-327. -/
inductive SummaryOutcome
| written (a : Analysis)
| skippedSummary (e : Exc)
| escaped (e : Exc)
deriving DecidableEq

/-- The exception classes the summary block catches on line 326. -/
def summaryCaught : Exc → Bool
| .valueError => true
| .typeError => true
| .keyError => true
| _ => false

/-- The summary-Excel block (lines 294-327): analyze_stock_data runs first
inside the writer; a caught exception logs an error and skips the whole
summary workbook, any other exception escapes to the retry wrapper. -/
def summaryStep (rows : List HistRow) (year : Int) : SummaryOutcome :=
  match analyze_stock_data rows year with
  | .ok a => .written a
  | .error e => if summaryCaught e then .skippedSummary e else .escaped e

/-- The retries entry of the built-in default configuration (line 40). -/
def CONFIG_retries : Nat := 3

/-- Attempt loop of the tenacity retry decorator: run numbered attempts
until one succeeds or the budget is exhausted. -/
def retryGo (attempt : Nat → Option Exc) : Nat → Nat → Option Exc
| 0, _ => some .retryError
| fuel + 1, i =>
    match attempt i with
    | none => none
    | some _ => retryGo attempt fuel (i + 1)

/-- The decorator of lines 229-230: stop_after_attempt(n) with reraise
left at its default False, so once n attempts have all raised, the call
raises tenacity.RetryError wrapping the last attempt rather than the
underlying exception. Returns none on success, some of the escaping
exception otherwise. -/
def retryCall (n : Nat) (attempt : Nat → Option Exc) : Option Exc :=
  retryGo attempt n 0

/-- The exception classes the batch loop catches on line 401. -/
def caughtByLoop : Exc → Bool
| .valueError => true
| .typeError => true
| .keyError => true
| .osError => true
| _ => false

/-- Result of the batch loop of lines 397-403: either the loop ran to the
end (and the completion banner of line 405 is printed), carrying the
tickers whose failures were caught, or an uncaught exception escaped at
some ticker and the banner is never reached. -/
inductive BatchOutcome
| completed (failed : List String)
| aborted (t : String) (e : Exc)
deriving DecidableEq

/-- The batch loop (lines 397-403): each ticker runs analyze_stock under
the retry decorator; a raised exception in the caught set is printed and
the loop continues, any other exception escapes and aborts the batch. -/
def runBatch (n : Nat) (attempt : String → Nat → Option Exc) : List String → BatchOutcome
| [] => .completed []
| t :: ts =>
    match retryCall n (attempt t) with
    | none => runBatch n attempt ts
    | some e =>
        if caughtByLoop e then
          match runBatch n attempt ts with
          | .completed fs => .completed (t :: fs)
          | .aborted u e2 => .aborted u e2
        else .aborted t e

theorem stripIdxTZ_idem (i : Idx) : stripIdxTZ (stripIdxTZ i) = stripIdxTZ i := by
  cases i with
  | dtIdx tz walls => cases tz <;> rfl
  | plain n => rfl

theorem stripValTZ_idem (v : Val) : stripValTZ (stripValTZ v) = stripValTZ v := by
  cases v <;> rfl

theorem map_stripValTZ_idem (l : List Val) :
    (l.map stripValTZ).map stripValTZ = l.map stripValTZ := by
  induction l with
  | nil => rfl
  | cons a t ih => simp only [List.map_cons, stripValTZ_idem, ih]

theorem objectColStep_eq (c : Col) : objectColStep c = c := by
  rcases c with ⟨n, d, v⟩
  cases d <;> simp [objectColStep, isDatetime64AnyDtype]

theorem stripColTZ_idem (c : Col) : stripColTZ (stripColTZ c) = stripColTZ c := by
  rcases c with ⟨n, d, v⟩
  cases d with
  | dtNaive => simp [stripColTZ, selectedDtype, stripValTZ_idem]
  | dtAware tz =>
      cases hsel : (tz == "UTC" || tz == "US/Eastern") <;>
        simp [stripColTZ, selectedDtype, hsel, stripValTZ_idem]
  | object => simp [stripColTZ, selectedDtype]
  | numeric => simp [stripColTZ, selectedDtype]

theorem colStep_idem (c : Col) :
    objectColStep (stripColTZ (objectColStep (stripColTZ c))) =
      objectColStep (stripColTZ c) := by
  rw [objectColStep_eq, objectColStep_eq]
  exact stripColTZ_idem c

theorem map_colStep_idem (l : List Col) :
    (l.map (fun c => objectColStep (stripColTZ c))).map (fun c => objectColStep (stripColTZ c)) =
      l.map (fun c => objectColStep (stripColTZ c)) := by
  induction l with
  | nil => rfl
  | cons a t ih => simp only [List.map_cons, colStep_idem, ih]

theorem stripSeriesVals_idx (s : Series) : (stripSeriesVals s).idx = s.idx := by
  unfold stripSeriesVals
  split <;> rfl

theorem stripSeriesVals_idem (s : Series) :
    stripSeriesVals (stripSeriesVals s) = stripSeriesVals s := by
  rcases s with ⟨n, i, d, v⟩
  cases d <;> simp [stripSeriesVals, isDatetime64AnyDtype, seriesTz]

/-- C10: remove_timezone is idempotent — on every input (None, frame or
series; the other shapes pass through unchanged) a second application
returns the first application's result, since the first leaves no
timezone-aware index, column or value behind. -/
theorem c10_remove_timezone_idempotent (x : PyData) :
    remove_timezone (remove_timezone x) = remove_timezone x := by
  cases x with
  | pyNone => rfl
  | dict d => rfl
  | other => rfl
  | frame f =>
      simp only [remove_timezone, PyData.frame.injEq]
      refine congrArg₂ Frame.mk ?_ ?_
      · exact stripIdxTZ_idem f.idx
      · exact map_colStep_idem f.cols
  | series s =>
      rcases s with ⟨n, i, d, v⟩
      cases d <;>
        simp [remove_timezone, stripSeriesVals, isDatetime64AnyDtype, seriesTz,
          stripIdxTZ_idem, stripValTZ_idem]

/-- C1: the claim that retry exhaustion is caught by the batch loop fails
on the code — with the default three retries, a ticker whose every attempt
raises ValueError makes the tenacity decorator raise RetryError (reraise
is left False), RetryError is not among the classes the loop catches, and
the batch aborts at that ticker without reaching the later tickers or the
completion banner. -/
theorem c1_retry_exhaustion_aborts_batch :
    retryCall CONFIG_retries (fun _ => some Exc.valueError) = some Exc.retryError
    ∧ caughtByLoop Exc.retryError = false
    ∧ runBatch CONFIG_retries
        (fun t _ => if t = "BAD" then some Exc.valueError else none)
        ["BAD", "GOOD"] = .aborted "BAD" Exc.retryError := by
  refine ⟨rfl, rfl, ?_⟩
  rfl

/-- The two-row historical series of a stale listing: both rows dated in
the calendar year 2025, while the run happens in 2026. -/
def histStale : List HistRow :=
  [{ year := 2025, close := 100, high := 110, low := 90 },
   { year := 2025, close := 120, high := 125, low := 95 }]

/-- C2: the claim that the YTD return is reported as unavailable fails on
the code — on a series with no row in the current calendar year the YTD
lookup raises KeyError, the summary writer catches it and skips the whole
summary workbook, so no metric of the per-ticker summary is produced
(though the pipeline itself continues). -/
theorem c2_ytd_missing_year_raises_keyerror :
    analyze_stock_data histStale 2026 = .error Exc.keyError
    ∧ summaryStep histStale 2026 = .skippedSummary Exc.keyError := by
  exact ⟨rfl, rfl⟩

/-- A frame with one object-dtype column whose values are all timestamps,
as provider info columns such as exDividendDate arrive. -/
def objectDatetimeFrame : Frame :=
  { idx := .plain 2
  , cols := [{ name := "Earnings Date", dtype := .object
             , vals := [.dt 100 none, .dt 200 none] }] }

/-- C9: the claim that timestamp-valued object columns are coerced to bare
dates fails on the code — the guard is_datetime64_any_dtype is evaluated
on a column already known to have object dtype, so it is always false and
the coercion on line 122 is unreachable: remove_timezone returns the frame
unchanged even though the coercion would have changed its values. -/
theorem c9_object_column_never_coerced :
    remove_timezone (.frame objectDatetimeFrame) = .frame objectDatetimeFrame
    ∧ objectDatetimeFrame.cols.map (fun c => c.vals.map valToDate)
        ≠ objectDatetimeFrame.cols.map Col.vals := by
  refine ⟨rfl, ?_⟩
  decide

/-- C8: for every input frame whose date index carries timezone
information, remove_timezone yields a frame whose index has no timezone
while every wall-clock date entry is preserved identically and the index
is still a datetime index (not plain text). -/
theorem c8_strip_timezone_index (f : Frame) (tz : String) (walls : List Int)
    (h : f.idx = .dtIdx (some tz) walls) :
    ∃ f2, remove_timezone (.frame f) = .frame f2 ∧ f2.idx = .dtIdx none walls := by
  refine ⟨_, rfl, ?_⟩
  rw [h]
  rfl

/-- Witness for C8 at a concrete frame with a US/Eastern index. -/
theorem c8_strip_timezone_index_witness :
    ∃ f2, remove_timezone (.frame { idx := .dtIdx (some "US/Eastern") [10, 11]
                                  , cols := [] }) = .frame f2
      ∧ f2.idx = .dtIdx none [10, 11] :=
  c8_strip_timezone_index _ "US/Eastern" [10, 11] rfl

/-- C5: handle_data returns none on None and on every container it
recognises as empty (an empty frame or series); wraps a dict tagged info
into a one-row frame whose single row equals the mapping; returns
already-tabular nonempty frames and series unchanged; and returns none on
every other input (a dict not tagged info, or any non-tabular object). -/
theorem c5_handle_data_cases :
    (∀ dt, handle_data .pyNone dt = none)
    ∧ (∀ f dt, frameEmpty f = true → handle_data (.frame f) dt = none)
    ∧ (∀ s dt, s.vals.isEmpty = true → handle_data (.series s) dt = none)
    ∧ (∀ d, handle_data (.dict d) (some "info") = some (.frame (infoFrame d))
        ∧ frameRowCount (infoFrame d) = 1
        ∧ frameFirstRow (infoFrame d) = d.map (fun kv => (kv.1, some kv.2)))
    ∧ (∀ f dt, frameEmpty f = false → handle_data (.frame f) dt = some (.frame f))
    ∧ (∀ s dt, s.vals.isEmpty = false → handle_data (.series s) dt = some (.series s))
    ∧ (∀ d dt, dt ≠ some "info" → handle_data (.dict d) dt = none)
    ∧ (∀ dt, handle_data .other dt = none) := by
  refine ⟨fun _ => rfl, ?_, ?_, ?_, ?_, ?_, ?_, fun _ => rfl⟩
  · intro f dt h
    simp [handle_data, h]
  · intro s dt h
    simp [handle_data, h]
  · intro d
    refine ⟨rfl, rfl, ?_⟩
    simp [frameFirstRow, infoFrame, List.map_map, Function.comp]
  · intro f dt h
    simp [handle_data, h]
  · intro s dt h
    simp [handle_data, h]
  · intro d dt h
    simp [handle_data, h]

/-- Witness for C5: the hypotheses discharged at concrete inputs — an
empty frame and empty series normalize to none, a nonempty frame and
series pass through, and a dict tagged other than info normalizes to
none. -/
theorem c5_handle_data_cases_witness :
    handle_data (.frame { idx := .plain 0, cols := [] }) none = none
    ∧ handle_data (.series { name := "Dividends", idx := .plain 0
                           , dtype := .numeric, vals := [] }) none = none
    ∧ handle_data (.frame { idx := .plain 1
                          , cols := [{ name := "Close", dtype := .numeric
                                     , vals := [.num 3] }] }) none
        = some (.frame { idx := .plain 1
                       , cols := [{ name := "Close", dtype := .numeric
                                  , vals := [.num 3] }] })
    ∧ handle_data (.series { name := "Dividends", idx := .plain 1
                           , dtype := .numeric, vals := [.num 1] }) none
        = some (.series { name := "Dividends", idx := .plain 1
                        , dtype := .numeric, vals := [.num 1] })
    ∧ handle_data (.dict [("zip", .str "95014")]) (some "financials") = none :=
  ⟨c5_handle_data_cases.2.1 _ none (by decide),
   c5_handle_data_cases.2.2.1 _ none (by decide),
   c5_handle_data_cases.2.2.2.2.1 _ none (by decide),
   c5_handle_data_cases.2.2.2.2.2.1 _ none (by decide),
   c5_handle_data_cases.2.2.2.2.2.2.1 _ (some "financials") (by decide)⟩

/-- C6: every one of the four interactive prompts — data-type selection,
ticker entry, period entry and output-directory entry — reads its reply
through safe_input, so any reply whose stripped, lowercased text is exit
terminates the process with exit code 0. -/
theorem c6_exit_sentinel_all_prompts (s d : String) (h : pyLower (pyStrip s) = "exit") :
    select_data_types s = .exitWith 0
    ∧ tickerPromptStep s = .exitWith 0
    ∧ periodPromptStep s d = .exitWith 0
    ∧ outputDirPromptStep s d = .exitWith 0 := by
  refine ⟨?_, ?_, ?_, ?_⟩ <;>
    simp [select_data_types, tickerPromptStep, periodPromptStep, outputDirPromptStep,
      safe_input, h]

/-- Witness for C6 at the concrete reply Exit with surrounding blanks. -/
theorem c6_exit_sentinel_all_prompts_witness :
    select_data_types " Exit " = .exitWith 0
    ∧ tickerPromptStep " Exit " = .exitWith 0
    ∧ periodPromptStep " Exit " "2y" = .exitWith 0
    ∧ outputDirPromptStep " Exit " "Analysis" = .exitWith 0 :=
  ⟨(c6_exit_sentinel_all_prompts " Exit " "2y" (by decide)).1,
   (c6_exit_sentinel_all_prompts " Exit " "2y" (by decide)).2.1,
   (c6_exit_sentinel_all_prompts " Exit " "2y" (by decide)).2.2.1,
   (c6_exit_sentinel_all_prompts " Exit " "Analysis" (by decide)).2.2.2⟩

/-- C7: at the data-type prompt, the reply 0 and the empty reply both
yield the full enumerated key list in its documented fixed order; a reply
whose parse raises ValueError, or whose parsed indices select nothing,
falls back to the full list; and otherwise the comma-separated 1-based
indices select exactly the corresponding keys, as the concrete reply
1,3,5 illustrates. -/
theorem c7_data_type_selection :
    select_data_types "0" = .val DATA_TYPE_KEYS
    ∧ select_data_types "" = .val DATA_TYPE_KEYS
    ∧ DATA_TYPE_KEYS = ["historical", "financials", "quarterly_financials",
        "balance_sheet", "quarterly_balance_sheet", "cashflow",
        "quarterly_cashflow", "dividends", "splits", "info"]
    ∧ (∀ s, parsedIndices s = none → parseDataTypeSelection s = DATA_TYPE_KEYS)
    ∧ (∀ s idxs, parsedIndices s = some idxs → validSelections idxs = [] →
        parseDataTypeSelection s = DATA_TYPE_KEYS)
    ∧ (∀ s idxs, parsedIndices s = some idxs → validSelections idxs ≠ [] →
        s ≠ "" → s ≠ "0" → parseDataTypeSelection s = validSelections idxs)
    ∧ parseDataTypeSelection "1,3,5"
        = ["historical", "quarterly_financials", "quarterly_balance_sheet"] := by
  refine ⟨rfl, rfl, rfl, ?_, ?_, ?_, rfl⟩
  · intro s h
    unfold parseDataTypeSelection
    split
    · rfl
    · rw [h]
  · intro s idxs h hsel
    unfold parseDataTypeSelection
    split
    · rfl
    · rw [h]
      simp [hsel]
  · intro s idxs h hsel hne h0
    unfold parseDataTypeSelection
    rw [if_neg (by simp [hne, h0]), h]
    simp [hsel]

/-- Witness for C7: the fallback and selection branches applied at the
concrete replies abc (unparseable), 99 (parseable but out of range) and
2 (a valid selection). -/
theorem c7_data_type_selection_witness :
    parseDataTypeSelection "abc" = DATA_TYPE_KEYS
    ∧ parseDataTypeSelection "99" = DATA_TYPE_KEYS
    ∧ parseDataTypeSelection "2" = validSelections [1] :=
  ⟨c7_data_type_selection.2.2.2.1 "abc" (by decide),
   c7_data_type_selection.2.2.2.2.1 "99" [98] (by decide) (by decide),
   c7_data_type_selection.2.2.2.2.2.1 "2" [1] (by decide) (by decide)
     (by decide) (by decide)⟩

theorem foldl_max_mem (xs : List ℚ) (x : ℚ) :
    xs.foldl max x = x ∨ xs.foldl max x ∈ xs := by
  induction xs generalizing x with
  | nil => exact Or.inl rfl
  | cons a t ih =>
      rcases ih (max x a) with h | h
      · rcases max_choice x a with hm | hm
        · exact Or.inl (by rw [List.foldl_cons, h, hm])
        · exact Or.inr (by rw [List.foldl_cons, h, hm]; exact List.mem_cons_self a t)
      · exact Or.inr (List.mem_cons_of_mem a h)

theorem le_foldl_max (xs : List ℚ) (x : ℚ) :
    x ≤ xs.foldl max x ∧ ∀ y ∈ xs, y ≤ xs.foldl max x := by
  induction xs generalizing x with
  | nil => exact ⟨le_refl x, by simp⟩
  | cons a t ih =>
      obtain ⟨h1, h2⟩ := ih (max x a)
      refine ⟨le_trans (le_max_left x a) h1, ?_⟩
      intro y hy
      rcases List.mem_cons.mp hy with rfl | hy
      · exact le_trans (le_max_right x y) h1
      · exact h2 y hy

theorem listMax_spec (l : List ℚ) (h : l ≠ []) :
    ∃ m, listMax l = some m ∧ m ∈ l ∧ ∀ x ∈ l, x ≤ m := by
  cases l with
  | nil => exact absurd rfl h
  | cons a t =>
      refine ⟨t.foldl max a, rfl, ?_, ?_⟩
      · rcases foldl_max_mem t a with h1 | h1
        · rw [h1]; exact List.mem_cons_self a t
        · exact List.mem_cons_of_mem a h1
      · intro x hx
        rcases List.mem_cons.mp hx with rfl | hx
        · exact (le_foldl_max t x).1
        · exact (le_foldl_max t a).2 x hx

theorem foldl_min_mem (xs : List ℚ) (x : ℚ) :
    xs.foldl min x = x ∨ xs.foldl min x ∈ xs := by
  induction xs generalizing x with
  | nil => exact Or.inl rfl
  | cons a t ih =>
      rcases ih (min x a) with h | h
      · rcases min_choice x a with hm | hm
        · exact Or.inl (by rw [List.foldl_cons, h, hm])
        · exact Or.inr (by rw [List.foldl_cons, h, hm]; exact List.mem_cons_self a t)
      · exact Or.inr (List.mem_cons_of_mem a h)

theorem foldl_min_le (xs : List ℚ) (x : ℚ) :
    xs.foldl min x ≤ x ∧ ∀ y ∈ xs, xs.foldl min x ≤ y := by
  induction xs generalizing x with
  | nil => exact ⟨le_refl x, by simp⟩
  | cons a t ih =>
      obtain ⟨h1, h2⟩ := ih (min x a)
      refine ⟨le_trans h1 (min_le_left x a), ?_⟩
      intro y hy
      rcases List.mem_cons.mp hy with rfl | hy
      · exact le_trans h1 (min_le_right x y)
      · exact h2 y hy

theorem listMin_spec (l : List ℚ) (h : l ≠ []) :
    ∃ m, listMin l = some m ∧ m ∈ l ∧ ∀ x ∈ l, m ≤ x := by
  cases l with
  | nil => exact absurd rfl h
  | cons a t =>
      refine ⟨t.foldl min a, rfl, ?_, ?_⟩
      · rcases foldl_min_mem t a with h1 | h1
        · rw [h1]; exact List.mem_cons_self a t
        · exact List.mem_cons_of_mem a h1
      · intro x hx
        rcases List.mem_cons.mp hx with rfl | hx
        · exact (foldl_min_le t x).1
        · exact (foldl_min_le t a).2 x hx

theorem lastN_of_length_le (n : Nat) (xs : List ℚ) (h : xs.length ≤ n) :
    lastN n xs = xs := by
  unfold lastN
  rw [Nat.sub_eq_zero_of_le h, List.drop_zero]

theorem lastN_ne_nil (n : Nat) (xs : List ℚ) (hn : 0 < n) (hx : xs ≠ []) :
    lastN n xs ≠ [] := by
  unfold lastN
  intro h
  have hlen : xs.length - (xs.length - n) = 0 := by
    have := congrArg List.length h
    simpa [List.length_drop] using this
  have hxlen : 0 < xs.length := List.length_pos.mpr hx
  omega

theorem getLast?_range_map {α : Type} (f : Nat → α) (n : Nat) (h : 0 < n) :
    ((List.range n).map f).getLast? = some (f (n - 1)) := by
  cases n with
  | zero => omega
  | succ m =>
      rw [List.range_succ, List.map_append]
      simp

theorem rollingMean_getLast_of_le (w : Nat) (xs : List ℚ)
    (h0 : 0 < xs.length) (hw : w ≤ xs.length) :
    (rollingMean w xs).getLast? = some (some ((lastN w xs).sum / (w : ℚ))) := by
  unfold rollingMean
  rw [getLast?_range_map _ _ h0]
  have h1 : xs.length - 1 + 1 = xs.length := Nat.succ_pred_eq_of_pos h0
  rw [h1, if_neg (by omega : ¬ xs.length < w), List.take_length]
  rfl

theorem rollingMean_getLast_of_short (w : Nat) (xs : List ℚ)
    (h0 : 0 < xs.length) (hw : xs.length < w) :
    (rollingMean w xs).getLast? = some none := by
  unfold rollingMean
  rw [getLast?_range_map _ _ h0]
  have h1 : xs.length - 1 + 1 = xs.length := Nat.succ_pred_eq_of_pos h0
  rw [h1, if_pos hw]

set_option maxRecDepth 4000 in
theorem analyze_ok_fields (rows : List HistRow) (year : Int) (a : Analysis)
    (h : analyze_stock_data rows year = .ok a) :
    a.high52 = high52w (rows.map HistRow.high)
    ∧ a.low52 = low52w (rows.map HistRow.low)
    ∧ a.ma50 = ((rollingMean 50 (rows.map HistRow.close)).getLast?).join
    ∧ a.ma200 = ((rollingMean 200 (rows.map HistRow.close)).getLast?).join := by
  unfold analyze_stock_data at h
  split at h
  · simp at h
  · split at h
    · simp at h
    · rw [Except.ok.injEq] at h
      subst h
      exact ⟨rfl, rfl, rfl, rfl⟩

/-- A three-row historical series in the current calendar year with close
prices 1, 2 and 3: far fewer rows than either moving-average window. -/
def hist3 : List HistRow :=
  [{ year := 2026, close := 1, high := 1, low := 1 },
   { year := 2026, close := 2, high := 2, low := 2 },
   { year := 2026, close := 3, high := 3, low := 3 }]

/-- C3 counterexample: on a 3-row series, rolling(window=50).mean() leaves
NaN at the final row (pandas defaults min_periods to the window size), so
the 50-day moving average of the analysis is missing rather than the mean
2 of all three available closes; the claim that all available rows are
averaged fails. -/
theorem c3_short_series_ma_counterexample :
    (analyze_stock_data hist3 2026).map Analysis.ma50 = .ok none
    ∧ ((hist3.map HistRow.close).sum / 3 : ℚ) = 2
    ∧ (analyze_stock_data hist3 2026).map Analysis.ma50
        ≠ .ok (some ((hist3.map HistRow.close).sum / 3)) := by
  have h1 : (analyze_stock_data hist3 2026).map Analysis.ma50 = .ok none := by decide
  refine ⟨h1, by norm_num [hist3], ?_⟩
  rw [h1]
  simp

/-- C3 as amended: for a series with at least as many rows as the window,
the 50-day and 200-day moving averages at the final row equal the
arithmetic mean of the last 50 and last 200 closes; for a nonempty series
shorter than the window the value at the final row is NaN — missing, not
the mean of the available rows — and no error is raised; and the ma50 and
ma200 fields of a successful analysis are exactly these final rolling
values. -/
theorem c3_ma_trailing_window (xs : List ℚ) :
    (200 ≤ xs.length →
      (rollingMean 50 xs).getLast? = some (some ((lastN 50 xs).sum / (50 : ℚ)))
      ∧ (rollingMean 200 xs).getLast? = some (some ((lastN 200 xs).sum / (200 : ℚ))))
    ∧ (∀ w, 0 < xs.length → xs.length < w →
        (rollingMean w xs).getLast? = some none)
    ∧ (∀ rows year a, analyze_stock_data rows year = Except.ok a →
        a.ma50 = ((rollingMean 50 (rows.map HistRow.close)).getLast?).join
        ∧ a.ma200 = ((rollingMean 200 (rows.map HistRow.close)).getLast?).join) := by
  refine ⟨?_, ?_, ?_⟩
  · intro h
    exact ⟨rollingMean_getLast_of_le 50 xs (by omega) (by omega),
           rollingMean_getLast_of_le 200 xs (by omega) (by omega)⟩
  · intro w h0 hw
    exact rollingMean_getLast_of_short w xs h0 hw
  · intro rows year a h
    exact ⟨(analyze_ok_fields rows year a h).2.2.1, (analyze_ok_fields rows year a h).2.2.2⟩

/-- The concrete analysis record analyze_stock_data produces on hist3 in
year 2026. -/
def analysis3 : Analysis :=
  { currentPrice := 3
  , high52 := some 3
  , low52 := some 1
  , distHigh := some 0
  , distLow := some 200
  , ma50 := none
  , ma200 := none
  , ytdReturn := 200 }

theorem analyze_hist3 : analyze_stock_data hist3 2026 = .ok analysis3 := by
  show Except.ok
      { currentPrice := 3
      , high52 := some 3
      , low52 := some 1
      , distHigh := some (((3 : ℚ) / 3 - 1) * 100)
      , distLow := some (((3 : ℚ) / 1 - 1) * 100)
      , ma50 := none
      , ma200 := none
      , ytdReturn := ((3 : ℚ) / 1 - 1) * 100 } = Except.ok analysis3
  rw [Except.ok.injEq]
  norm_num [analysis3]

/-- Witness for C3: the amended statement applied at a 200-row series of
constant closes, at the short series of closes 1, 2, 3, and at the
successful concrete analysis of hist3. -/
theorem c3_ma_trailing_window_witness :
    ((rollingMean 50 (List.replicate 200 (1 : ℚ))).getLast?
        = some (some ((lastN 50 (List.replicate 200 (1 : ℚ))).sum / (50 : ℚ)))
      ∧ (rollingMean 200 (List.replicate 200 (1 : ℚ))).getLast?
        = some (some ((lastN 200 (List.replicate 200 (1 : ℚ))).sum / (200 : ℚ))))
    ∧ (rollingMean 50 [(1 : ℚ), 2, 3]).getLast? = some none
    ∧ (analysis3.ma50 = ((rollingMean 50 (hist3.map HistRow.close)).getLast?).join
        ∧ analysis3.ma200 = ((rollingMean 200 (hist3.map HistRow.close)).getLast?).join) :=
  ⟨(c3_ma_trailing_window (List.replicate 200 (1 : ℚ))).1
      (by rw [List.length_replicate]),
   (c3_ma_trailing_window [(1 : ℚ), 2, 3]).2.1 50 (by decide) (by decide),
   (c3_ma_trailing_window []).2.2 hist3 2026 analysis3 analyze_hist3⟩

/-- C4: for every nonempty historical series the 52-week high is an
attained maximum of the High entries over the last 252 rows and the
52-week low an attained minimum of the Low entries over the last 252 rows;
with at most 252 rows the trailing window is the whole series, so the
computation degrades to all available rows without erroring; and a
successful analysis carries exactly these values. -/
theorem c4_52week_high_low (rows : List HistRow) (h : rows ≠ []) :
    (∃ hi, high52w (rows.map HistRow.high) = some hi
       ∧ hi ∈ lastN 252 (rows.map HistRow.high)
       ∧ ∀ x ∈ lastN 252 (rows.map HistRow.high), x ≤ hi)
    ∧ (∃ lo, low52w (rows.map HistRow.low) = some lo
       ∧ lo ∈ lastN 252 (rows.map HistRow.low)
       ∧ ∀ x ∈ lastN 252 (rows.map HistRow.low), lo ≤ x)
    ∧ (rows.length ≤ 252 →
        lastN 252 (rows.map HistRow.high) = rows.map HistRow.high
        ∧ lastN 252 (rows.map HistRow.low) = rows.map HistRow.low)
    ∧ (∀ year a, analyze_stock_data rows year = Except.ok a →
        a.high52 = high52w (rows.map HistRow.high)
        ∧ a.low52 = low52w (rows.map HistRow.low)) := by
  have hmapH : rows.map HistRow.high ≠ [] := by
    simpa [List.map_eq_nil_iff] using h
  have hmapL : rows.map HistRow.low ≠ [] := by
    simpa [List.map_eq_nil_iff] using h
  refine ⟨?_, ?_, ?_, ?_⟩
  · exact listMax_spec _ (lastN_ne_nil 252 _ (by omega) hmapH)
  · exact listMin_spec _ (lastN_ne_nil 252 _ (by omega) hmapL)
  · intro hlen
    constructor <;> exact lastN_of_length_le 252 _ (by simpa using hlen)
  · intro year a ha
    exact ⟨(analyze_ok_fields rows year a ha).1, (analyze_ok_fields rows year a ha).2.1⟩

/-- Witness for C4: the theorem applied at the concrete one-row series of
hist3 truncated, with all hypotheses discharged by evaluation. -/
theorem c4_52week_high_low_witness :
    (∃ hi, high52w (hist3.map HistRow.high) = some hi
       ∧ hi ∈ lastN 252 (hist3.map HistRow.high)
       ∧ ∀ x ∈ lastN 252 (hist3.map HistRow.high), x ≤ hi)
    ∧ (hist3.length ≤ 252 →
        lastN 252 (hist3.map HistRow.high) = hist3.map HistRow.high
        ∧ lastN 252 (hist3.map HistRow.low) = hist3.map HistRow.low)
    ∧ analysis3.high52 = high52w (hist3.map HistRow.high) :=
  ⟨(c4_52week_high_low hist3 (by decide)).1,
   (c4_52week_high_low hist3 (by decide)).2.2.1,
   ((c4_52week_high_low hist3 (by decide)).2.2.2 2026 analysis3 analyze_hist3).1⟩

end StockAnalyzer
